import Mathlib

/-!
Verification development for the `nvtraystat` GPU monitor.

`nv_monitor_service.py` is embedded as a state machine: the mutable fields of
`SystemTrayApp` become the `Monitor` structure, each Qt timer becomes an
`Option Nat` field (`none` = stopped, `some ms` = running at interval `ms`),
and each timer callback / menu hook becomes a Lean function from `Monitor`
and an `Env` (the results the external world returns this tick) to a new
`Monitor` together with the list of device queries the call issued.

`gpu_task_manager.py`'s `GPUWorker.fetch_processes` (the reconciliation of
NVML results with the `/proc` file-descriptor scan) is embedded as a pure
function over the NVML result list and the raw stdout of the shell pipeline;
the Python `dict` is modelled as an insertion-ordered association list.

Purely presentational code (icons, tooltips, menu layout, Qt widgets) is
outside the model; only state, counters, timers, issued queries and the
process data are represented.
-/

/-- The values of `self.state` in `SystemTrayApp`. -/
inductive DeviceState where
  | UNKNOWN
  | ACTIVE
  | IDLE_DETECTING
  | SUSPENDED
  | ERROR
deriving DecidableEq, Repr

/-- The device queries the monitor can issue during one callback:
the cheap read of the `runtime_status` file, the expensive
`nvidia-smi` process-list query, and the expensive `nvidia-smi`
utilization/memory query. -/
inductive Query where
  | powerRead
  | processQuery
  | metricsQuery
deriving DecidableEq, Repr

/-- Failure modes of the `runtime_status` file read: `FileNotFoundError`
is caught separately from every other exception. -/
inductive PowerErr where
  | fileNotFound
  | other
deriving DecidableEq, Repr

/-- What the external world would answer on this tick: the raw content of the
power-state file (or a failure), and the raw stdout of the two `nvidia-smi`
invocations (or a failure, covering non-zero exit, timeout and missing tool). -/
structure Env where
  powerResult : Except PowerErr String
  processResult : Except Unit String
  statusResult : Except Unit String
deriving Repr

/-- The mutable state of `SystemTrayApp`:
`state`, `fast_check_counter`, the four timers, `last_parsed_data`
(`none` models Python `None`) and `gpu_status_data` (utilization, memory). -/
structure Monitor where
  state : DeviceState
  fast_check_counter : Int
  status_timer : Option Nat
  process_timer : Option Nat
  fast_check_timer : Option Nat
  idle_timer : Option Nat
  last_parsed_data : Option (List (String × String))
  gpu_status_data : String × String
deriving DecidableEq, Repr

/-- `PROCESS_POLL_MS = 1000`. -/
def PROCESS_POLL_MS : Nat := 1000

/-- `STATUS_POLL_MS = 1000`. -/
def STATUS_POLL_MS : Nat := 1000

/-- `FAST_CHECK_INTERVAL_MS = 1000`. -/
def FAST_CHECK_INTERVAL_MS : Nat := 1000

/-- `FAST_CHECK_COUNT = 3`. -/
def FAST_CHECK_COUNT : Int := 3

/-- `IDLE_CHECK_LOOP_MS = 30000`. -/
def IDLE_CHECK_LOOP_MS : Nat := 30000

/-- The whitespace characters that occur in this program's data; Python's
`str.strip()` removes them from both ends. -/
def isPySpace (c : Char) : Bool := c = ' ' ∨ c = '\n' ∨ c = '\t' ∨ c = '\r'

/-- Strip `isPySpace` characters from both ends of a character list. -/
def stripChars (l : List Char) : List Char :=
  ((l.dropWhile isPySpace).reverse.dropWhile isPySpace).reverse

/-- Python `str.split(sep)` for a one-character separator, on character
lists: `split` of the empty string is `[""]`, adjacent separators produce
empty fields. -/
def splitOnChar (sep : Char) : List Char → List (List Char)
  | [] => [[]]
  | c :: rest =>
    if c = sep then [] :: splitOnChar sep rest
    else
      match splitOnChar sep rest with
      | [] => [[c]]
      | g :: gs => (c :: g) :: gs

/-- Python `str.strip()` on the whitespace that occurs in this program's data. -/
def pyStrip (s : String) : String := ⟨stripChars s.data⟩

/-- Python `str.split(sep)` for a one-character separator. -/
def pySplit (sep : Char) (s : String) : List String :=
  (splitOnChar sep s.data).map (fun l => ⟨l⟩)

/-- `parse_nvidia_smi_output_processes`: split the stripped output into lines,
split each non-empty line on commas, strip the parts, and keep exactly the
lines with two fields as `(pid, name)` pairs. -/
def parse_nvidia_smi_output_processes (raw_output : String) : List (String × String) :=
  (pySplit '\n' (pyStrip raw_output)).foldl
    (fun data line =>
      if line ≠ "" then
        match (pySplit ',' line).map pyStrip with
        | [a, b] => data ++ [(a, b)]
        | _ => data
      else data)
    []

/-- `parse_nvidia_smi_output_status`: parse the first line of the stripped
output as `(utilization, memory_used)`, defaulting both to `"N/A"`. -/
def parse_nvidia_smi_output_status (raw_output : String) : String × String :=
  match pySplit '\n' (pyStrip raw_output) with
  | [] => ("N/A", "N/A")
  | line :: _ =>
    match (pySplit ',' line).map pyStrip with
    | [u, mem] => (u, mem)
    | _ => ("N/A", "N/A")

/-- `set_state`: if the state changes, stop the idle, fast-check and process
timers, then per target state reset the fast-check counter and start the
stage-1 timer (`IDLE_DETECTING`) or start the process timer (the `else`
branch, reached for `ACTIVE`). Icon and tooltip updates are presentation
only and not modelled. -/
def set_state (m : Monitor) (new_state : DeviceState) : Monitor :=
  if m.state ≠ new_state then
    let m1 : Monitor :=
      { m with state := new_state, idle_timer := none,
               fast_check_timer := none, process_timer := none }
    match new_state with
    | .SUSPENDED => m1
    | .IDLE_DETECTING =>
        { m1 with fast_check_counter := FAST_CHECK_COUNT,
                  fast_check_timer := some FAST_CHECK_INTERVAL_MS }
    | .ERROR => m1
    | _ => { m1 with process_timer := some PROCESS_POLL_MS }
  else m

/-- `check_runtime_status`: read the `runtime_status` file. On success, the
startup / `UNKNOWN` branch maps `suspended`/`active` to those states; the
ongoing branch moves `IDLE_DETECTING` to `SUSPENDED` only on `suspended`
(deliberately ignoring `active`), and moves `SUSPENDED` to `ACTIVE` on
`active`. `FileNotFoundError` stops the status and process timers and sets
`ERROR` unless already there; any other exception is swallowed. -/
def check_runtime_status (m : Monitor) (startup_check : Bool)
    (powerResult : Except PowerErr String) : Monitor :=
  match powerResult with
  | .ok raw =>
    let status := pyStrip raw
    let is_active := status = "active"
    let is_suspended := status = "suspended"
    if startup_check = true ∨ m.state = .UNKNOWN then
      if is_suspended then set_state m .SUSPENDED
      else if is_active then set_state m .ACTIVE
      else m
    else if m.state = .IDLE_DETECTING then
      if is_suspended then set_state m .SUSPENDED else m
    else if m.state = .SUSPENDED then
      if is_active then set_state m .ACTIVE else m
    else m
  | .error .fileNotFound =>
    if m.state ≠ .ERROR then
      set_state { m with status_timer := none, process_timer := none } .ERROR
    else m
  | .error .other => m

/-- `run_nvidia_smi_status`: run the utilization/memory query and store the
parsed result in `gpu_status_data`, falling back to `N/A` on any failure. -/
def run_nvidia_smi_status (m : Monitor) (statusResult : Except Unit String) : Monitor :=
  match statusResult with
  | .ok raw => { m with gpu_status_data := parse_nvidia_smi_output_status raw }
  | .error _ => { m with gpu_status_data := ("N/A", "N/A") }

/-- `check_status_and_metrics`: always check the runtime-status file first,
then run the expensive metrics query only if the state is `ACTIVE`;
otherwise set the metrics fields directly (zeros while suspended or idle,
`N/A` otherwise). The returned list records which queries were issued. -/
def check_status_and_metrics (m : Monitor) (startup_check : Bool) (e : Env) :
    Monitor × List Query :=
  let m1 := check_runtime_status m startup_check e.powerResult
  if m1.state = .ACTIVE then
    (run_nvidia_smi_status m1 e.statusResult, [.powerRead, .metricsQuery])
  else if m1.state = .SUSPENDED ∨ m1.state = .IDLE_DETECTING then
    ({ m1 with gpu_status_data := ("0%", "0MiB") }, [.powerRead])
  else
    ({ m1 with gpu_status_data := ("N/A", "N/A") }, [.powerRead])

/-- `force_run_process_check`: run the process-list query. On success with a
non-empty parse, store it and switch to `ACTIVE` if not already there; on an
empty parse, clear `last_parsed_data` to `None`. On any exception, store the
`["Error", "Command Failed"]` marker and switch to `ERROR`. Returns the new
state, the issued queries, and the Python return value. -/
def force_run_process_check (m : Monitor) (e : Env) :
    Monitor × List Query × List (String × String) :=
  match e.processResult with
  | .ok raw =>
    let parsed := parse_nvidia_smi_output_processes raw
    if parsed ≠ [] then
      let m1 := { m with last_parsed_data := some parsed }
      let m2 := if m1.state ≠ .ACTIVE then set_state m1 .ACTIVE else m1
      (m2, [.processQuery], parsed)
    else
      ({ m with last_parsed_data := none }, [.processQuery], [])
  | .error _ =>
    (set_state { m with last_parsed_data := some [("Error", "Command Failed")] } .ERROR,
     [.processQuery], [("Error", "Command Failed")])

/-- `run_nvidia_smi_processes` (the frequent `process_timer` callback): a
no-op unless `ACTIVE`; otherwise run the process-list query, switch to
`IDLE_DETECTING` when it parses empty, and store the parsed data. On any
exception, store the error marker and switch to `ERROR`. -/
def run_nvidia_smi_processes (m : Monitor) (e : Env) : Monitor × List Query :=
  if m.state ≠ .ACTIVE then (m, [])
  else
    match e.processResult with
    | .ok raw =>
      let parsed := parse_nvidia_smi_output_processes raw
      let m1 := if parsed = [] then set_state m .IDLE_DETECTING else m
      ({ m1 with last_parsed_data := some parsed }, [.processQuery])
    | .error _ =>
      (set_state { m with last_parsed_data := some [("Error", "Command Failed")] } .ERROR,
       [.processQuery])

/-- `check_idle_process_activity` (stage-1 fast and stage-2 slow idle
callback): a no-op unless `IDLE_DETECTING`; otherwise force a process check
(which switches to `ACTIVE` if processes were found), and, when still idle
and in stage 1, decrement the counter and hand over to the slow stage-2
loop when it reaches zero. -/
def check_idle_process_activity (m : Monitor) (e : Env) : Monitor × List Query :=
  if m.state ≠ .IDLE_DETECTING then (m, [])
  else
    let r := force_run_process_check m e
    let m1 := r.1
    if m1.state = .ACTIVE then (m1, r.2.1)
    else if m1.fast_check_timer.isSome then
      let m2 := { m1 with fast_check_counter := m1.fast_check_counter - 1 }
      if m2.fast_check_counter ≤ 0 then
        ({ m2 with fast_check_timer := none, idle_timer := some IDLE_CHECK_LOOP_MS },
         r.2.1)
      else (m2, r.2.1)
    else (m1, r.2.1)

/-- `update_process_menu` / `get_menu_data` (the `aboutToShow` hook), reduced
to its state effect: force a process check when `ACTIVE` or
`IDLE_DETECTING`; the text it renders into the menu is presentation only. -/
def update_process_menu (m : Monitor) (e : Env) : Monitor × List Query :=
  if m.state = .ACTIVE ∨ m.state = .IDLE_DETECTING then
    let r := force_run_process_check m e
    (r.1, r.2.1)
  else (m, [])

/-- The events that drive the monitor: each started timer's timeout and the
opening of the tray menu. -/
inductive Event where
  | statusTick
  | processTick
  | fastTick
  | idleTick
  | menuOpen
deriving DecidableEq, Repr

/-- One event dispatch: a timer callback runs only while its timer is
started (Qt timeout semantics); the menu hook runs whenever the menu is
opened. -/
def step (m : Monitor) (ev : Event) (e : Env) : Monitor × List Query :=
  match ev with
  | .statusTick =>
    if m.status_timer.isSome then check_status_and_metrics m false e else (m, [])
  | .processTick =>
    if m.process_timer.isSome then run_nvidia_smi_processes m e else (m, [])
  | .fastTick =>
    if m.fast_check_timer.isSome then check_idle_process_activity m e else (m, [])
  | .idleTick =>
    if m.idle_timer.isSome then check_idle_process_activity m e else (m, [])
  | .menuOpen => update_process_menu m e

/-- The fields `__init__` sets before the startup check: state `UNKNOWN`,
counter `0`, all timers stopped, no data. -/
def initMonitor : Monitor :=
  { state := .UNKNOWN, fast_check_counter := 0, status_timer := none,
    process_timer := none, fast_check_timer := none, idle_timer := none,
    last_parsed_data := none, gpu_status_data := ("N/A", "N/A") }

/-- The end of `__init__`: run `check_status_and_metrics(startup_check=True)`
once, then start the status timer unconditionally. -/
def startup (e : Env) : Monitor × List Query :=
  let r := check_status_and_metrics initMonitor true e
  ({ r.1 with status_timer := some STATUS_POLL_MS }, r.2)

/-- States reachable from `m0` by any sequence of events and environments. -/
inductive Reachable : Monitor → Monitor → Prop where
  | refl (m : Monitor) : Reachable m m
  | tick {m m' : Monitor} (ev : Event) (e : Env) :
      Reachable m m' → Reachable m (step m' ev e).1

/-! ## `gpu_task_manager.py`: `GPUWorker.fetch_processes`

The Python `combined` dict maps a pid string to `[name, source]`; it is
modelled as an insertion-ordered association list `List (String × String ×
String)` of `(pid, name, source)` with the lookup and assignment semantics
of a Python `dict` (assignment to an existing key updates it in place). -/

/-- Lookup in the association list modelling the `combined` dict. -/
def alookup (k : String) : List (String × String × String) → Option (String × String)
  | [] => none
  | (k1, v) :: rest => if k1 = k then some v else alookup k rest

/-- Python `dict` assignment `m[k] = v`: update the existing entry in place
if the key is present, append a new entry otherwise. -/
def dictSet (m : List (String × String × String)) (k : String) (v : String × String) :
    List (String × String × String) :=
  if (alookup k m).isSome then
    m.map (fun p => if p.1 = k then (k, v) else p)
  else m ++ [(k, v)]

/-- Python `line.split(' ', 1)` when it yields two parts (i.e. when the line
contains a space): the text before the first space and everything after it. -/
def pySplitOnce (line : String) : Option (String × String) :=
  match pySplit ' ' line with
  | [] => none
  | [_] => none
  | a :: rest => some (a, joinSpace rest)
where
  /-- Rejoin the remaining fields with single spaces, undoing the extra
  splits so the result equals Python's `maxsplit=1` behaviour. -/
  joinSpace : List String → String
    | [] => ""
    | [s] => s
    | s :: rest => s ++ " " ++ joinSpace rest

/-- The NVML phase of `fetch_processes`: for each process reported by
`nvmlDeviceGetComputeRunningProcesses` / `nvmlDeviceGetGraphicsRunningProcesses`,
look up its name (`none` models a `nvmlSystemGetProcessName` exception, which
the code skips with `continue`) and store `[name, "NVML"]` under `str(pid)`. -/
def nvmlPhase (nv_procs : List (Nat × Option String))
    (combined : List (String × String × String)) : List (String × String × String) :=
  nv_procs.foldl
    (fun m p =>
      match p.2 with
      | some name => dictSet m (toString p.1) (name, "NVML")
      | none => m)
    combined

/-- The `/proc` fallback phase of `fetch_processes`: for each non-empty line
of the shell pipeline's stdout that contains a space, insert
`[name, "/proc"]` under the pid only if the pid is not already present. -/
def procPhase (lines : List String) (combined : List (String × String × String)) :
    List (String × String × String) :=
  lines.foldl
    (fun m line =>
      if line ≠ "" then
        match pySplitOnce line with
        | some (pid, name) =>
          if (alookup pid m).isNone then m ++ [(pid, (name, "/proc"))] else m
        | none => m
      else m)
    combined

/-- `GPUWorker.fetch_processes`: start from the empty dict, run the NVML
phase (skipped entirely when NVML is unavailable or throws, modelled by an
empty `nv_procs` list), then the `/proc` fallback phase over the stripped,
line-split stdout of the shell pipeline (`none` models a subprocess
exception, which leaves the dict unchanged). -/
def fetch_processes (nv_procs : List (Nat × Option String))
    (proc_stdout : Option String) : List (String × String × String) :=
  let combined := nvmlPhase nv_procs []
  match proc_stdout with
  | none => combined
  | some raw => procPhase (pySplit '\n' (pyStrip raw)) combined

/-- The successful NVML observations keyed the way the dict keys them:
`(str(pid), name)` for each process whose name lookup succeeded. -/
def nvOk : List (Nat × Option String) → List (String × String)
  | [] => []
  | (pid, some name) :: rest => (toString pid, name) :: nvOk rest
  | (_, none) :: rest => nvOk rest

/-- A run of the monitor over a list of events, accumulating issued queries. -/
def run (m : Monitor) : List (Event × Env) → Monitor × List Query
  | [] => (m, [])
  | (ev, e) :: rest =>
    let r := step m ev e
    let r2 := run r.1 rest
    (r2.1, r.2 ++ r2.2)

/-- The key invariant behind the liveness of the cheap power poll: the
status timer is stopped only in (terminal) `ERROR`. -/
def StatusLive (m : Monitor) : Prop := m.status_timer = none → m.state = .ERROR

/-- A concrete environment: the device is powered, one compute process is
running, and the metrics query answers. -/
def envActive : Env :=
  { powerResult := .ok "active\n", processResult := .ok "1234, train.py\n",
    statusResult := .ok "5 %, 100 MiB" }

/-- A concrete environment: the device reports `suspended` and both
`nvidia-smi` queries would return nothing. -/
def envSuspended : Env :=
  { powerResult := .ok "suspended\n", processResult := .ok "",
    statusResult := .ok "" }

/-- A concrete environment: powered, but the process-list query returns an
empty list. -/
def envNoProcs : Env :=
  { powerResult := .ok "active\n", processResult := .ok "",
    statusResult := .ok "5 %, 100 MiB" }

/-- A concrete environment in which the process-list query raises (tool
missing, non-zero exit or timeout). -/
def envProcFail : Env :=
  { powerResult := .ok "active\n", processResult := .error (),
    statusResult := .ok "" }

/-- A concrete environment in which reading the power-state file raises
`FileNotFoundError`. -/
def envPowerGone : Env :=
  { powerResult := .error .fileNotFound, processResult := .ok "",
    statusResult := .ok "" }

/-- The monitor right after startup against a powered device. -/
def mActive : Monitor := (startup envActive).1

/-- The monitor right after startup against a suspended device. -/
def mSuspended : Monitor := (startup envSuspended).1

/-- The monitor after the active process list comes back empty: freshly in
`IDLE_DETECTING` with the counter at the threshold. -/
def mIdle : Monitor := (step mActive .processTick envNoProcs).1

/-- `mIdle` after two empty stage-1 fast checks: counter down to 1. -/
def mIdleLate : Monitor :=
  (step (step mIdle .fastTick envNoProcs).1 .fastTick envNoProcs).1

/-- The monitor after a process-query failure while active: in `ERROR`, but
with the status timer still running. -/
def mFailed : Monitor := (step mActive .processTick envProcFail).1

theorem set_state_state (m : Monitor) (ns : DeviceState) : (set_state m ns).state = ns := by
  unfold set_state
  split
  · cases ns <;> rfl
  · next h => simpa using (not_not.mp (by simpa using h))


theorem set_state_status_timer (m : Monitor) (ns : DeviceState) :
    (set_state m ns).status_timer = m.status_timer := by
  unfold set_state
  split
  · cases ns <;> rfl
  · rfl


theorem halted_step (m : Monitor) (ev : Event) (e : Env)
    (h1 : m.state = .ERROR) (h2 : m.status_timer = none) (h3 : m.process_timer = none)
    (h4 : m.fast_check_timer = none) (h5 : m.idle_timer = none) :
    step m ev e = (m, []) := by
  cases ev <;> simp [step, h1, h2, h3, h4, h5, update_process_menu]


theorem halted_run (m : Monitor) (evs : List (Event × Env))
    (h1 : m.state = .ERROR) (h2 : m.status_timer = none) (h3 : m.process_timer = none)
    (h4 : m.fast_check_timer = none) (h5 : m.idle_timer = none) :
    run m evs = (m, []) := by
  induction evs with
  | nil => rfl
  | cons p rest ih =>
    obtain ⟨ev, e⟩ := p
    simp [run, halted_step m ev e h1 h2 h3 h4 h5, ih]


theorem fnf_tick (m : Monitor) (e : Env)
    (h1 : m.state ≠ .ERROR) (h2 : m.status_timer.isSome)
    (h3 : e.powerResult = .error .fileNotFound) :
    (step m .statusTick e).1.state = .ERROR
    ∧ (step m .statusTick e).1.status_timer = none
    ∧ (step m .statusTick e).1.process_timer = none
    ∧ (step m .statusTick e).1.fast_check_timer = none
    ∧ (step m .statusTick e).1.idle_timer = none
    ∧ (step m .statusTick e).2 = [.powerRead] := by
  obtain ⟨v, hv⟩ := Option.isSome_iff_exists.mp h2
  simp [step, hv, check_status_and_metrics, check_runtime_status, h3, set_state, h1]


theorem force_status_timer (m : Monitor) (e : Env) :
    (force_run_process_check m e).1.status_timer = m.status_timer := by
  unfold force_run_process_check
  cases e.processResult with
  | ok raw =>
    dsimp only
    split
    · split <;> simp [set_state_status_timer]
    · rfl
  | error u => simp [set_state_status_timer]


theorem crs_status_or (m : Monitor) (p : Except PowerErr String) :
    (check_runtime_status m false p).status_timer = m.status_timer
    ∨ ((check_runtime_status m false p).status_timer = none
       ∧ (check_runtime_status m false p).state = .ERROR) := by
  cases p with
  | ok raw =>
    left
    simp only [check_runtime_status]
    repeat' split
    all_goals simp [set_state_status_timer]
  | error err =>
    cases err with
    | fileNotFound =>
      simp only [check_runtime_status]
      split
      · right; rw [set_state_status_timer, set_state_state]; simp
      · left; rfl
    | other => left; rfl


theorem csm_fields (m : Monitor) (s : Bool) (e : Env) :
    (check_status_and_metrics m s e).1.state = (check_runtime_status m s e.powerResult).state
    ∧ (check_status_and_metrics m s e).1.fast_check_counter
        = (check_runtime_status m s e.powerResult).fast_check_counter
    ∧ (check_status_and_metrics m s e).1.status_timer
        = (check_runtime_status m s e.powerResult).status_timer
    ∧ (check_status_and_metrics m s e).1.process_timer
        = (check_runtime_status m s e.powerResult).process_timer
    ∧ (check_status_and_metrics m s e).1.fast_check_timer
        = (check_runtime_status m s e.powerResult).fast_check_timer
    ∧ (check_status_and_metrics m s e).1.idle_timer
        = (check_runtime_status m s e.powerResult).idle_timer := by
  unfold check_status_and_metrics
  dsimp only
  repeat' split
  all_goals cases e.statusResult <;> simp [run_nvidia_smi_status]


theorem runp_noop (m : Monitor) (e : Env) (h : m.state = .ERROR) :
    run_nvidia_smi_processes m e = (m, []) := by
  simp [run_nvidia_smi_processes, h]


theorem idle_noop (m : Monitor) (e : Env) (h : m.state = .ERROR) :
    check_idle_process_activity m e = (m, []) := by
  simp [check_idle_process_activity, h]


theorem menu_noop (m : Monitor) (e : Env) (h : m.state = .ERROR) :
    update_process_menu m e = (m, []) := by
  simp [update_process_menu, h]


theorem runp_status_timer (m : Monitor) (e : Env) :
    (run_nvidia_smi_processes m e).1.status_timer = m.status_timer := by
  unfold run_nvidia_smi_processes
  split
  · rfl
  · cases e.processResult with
    | ok raw =>
      dsimp only
      split <;> simp [set_state_status_timer]
    | error u => simp [set_state_status_timer]


theorem idle_status_timer (m : Monitor) (e : Env) :
    (check_idle_process_activity m e).1.status_timer = m.status_timer := by
  unfold check_idle_process_activity
  split
  · rfl
  · dsimp only
    split
    · simp [force_status_timer]
    · split
      · split <;> simp [force_status_timer]
      · simp [force_status_timer]


theorem menu_status_timer (m : Monitor) (e : Env) :
    (update_process_menu m e).1.status_timer = m.status_timer := by
  unfold update_process_menu
  split
  · simp [force_status_timer]
  · rfl


theorem step_status_live (m : Monitor) (ev : Event) (e : Env) (h : StatusLive m) :
    StatusLive (step m ev e).1 := by
  cases ev with
  | statusTick =>
    rcases hs : m.status_timer with _ | v
    · simpa [step, hs] using h
    · intro hnone
      rw [step] at hnone ⊢
      simp only [hs, Option.isSome_some, if_true] at hnone ⊢
      rcases crs_status_or m e.powerResult with hp | ⟨_, he⟩
      · rw [(csm_fields m false e).2.2.1, hp, hs] at hnone; cases hnone
      · rw [(csm_fields m false e).1]; exact he
  | processTick =>
    intro hnone
    by_cases hp : m.process_timer.isSome
    · rw [step] at hnone ⊢
      simp only [hp, if_true] at hnone ⊢
      rw [runp_status_timer] at hnone
      have hm := h hnone
      rw [runp_noop m e hm]; exact hm
    · simp only [step, hp, if_false] at hnone ⊢; exact h hnone
  | fastTick =>
    intro hnone
    by_cases hp : m.fast_check_timer.isSome
    · rw [step] at hnone ⊢
      simp only [hp, if_true] at hnone ⊢
      rw [idle_status_timer] at hnone
      have hm := h hnone
      rw [idle_noop m e hm]; exact hm
    · simp only [step, hp, if_false] at hnone ⊢; exact h hnone
  | idleTick =>
    intro hnone
    by_cases hp : m.idle_timer.isSome
    · rw [step] at hnone ⊢
      simp only [hp, if_true] at hnone ⊢
      rw [idle_status_timer] at hnone
      have hm := h hnone
      rw [idle_noop m e hm]; exact hm
    · simp only [step, hp, if_false] at hnone ⊢; exact h hnone
  | menuOpen =>
    intro hnone
    rw [step] at hnone ⊢
    rw [menu_status_timer] at hnone
    have hm := h hnone
    rw [menu_noop m e hm]; exact hm


theorem reach_status_live (m0 m : Monitor) (h0 : StatusLive m0) (hr : Reachable m0 m) :
    StatusLive m := by
  induction hr with
  | refl => exact h0
  | tick ev e _ ih => exact step_status_live _ ev e ih


theorem statusTick_reads_power (m : Monitor) (e : Env) (h : m.status_timer.isSome) :
    Query.powerRead ∈ (step m .statusTick e).2 := by
  simp only [step, h, if_true]
  unfold check_status_and_metrics
  dsimp only
  repeat' split
  all_goals exact List.mem_cons_self _ _


theorem set_state_idle_counter (m : Monitor) (h : m.state ≠ .IDLE_DETECTING) :
    (set_state m .IDLE_DETECTING).fast_check_counter = FAST_CHECK_COUNT := by
  unfold set_state
  rw [if_pos h]


theorem crs_state_cases (m : Monitor) (s : Bool) (p : Except PowerErr String)
    (h : (check_runtime_status m s p).state = .IDLE_DETECTING) :
    m.state = .IDLE_DETECTING := by
  unfold check_runtime_status at h
  cases p with
  | ok raw =>
    dsimp only at h
    split at h
    · split at h
      · rw [set_state_state] at h; cases h
      · split at h
        · rw [set_state_state] at h; cases h
        · exact h
    · split at h
      · split at h
        · rw [set_state_state] at h; cases h
        · exact h
      · split at h
        · split at h
          · rw [set_state_state] at h; cases h
          · exact h
        · exact h
  | error err =>
    cases err with
    | fileNotFound =>
      dsimp only at h
      split at h
      · rw [set_state_state] at h; cases h
      · exact h
    | other => exact h


theorem force_state_cases (m : Monitor) (e : Env) :
    (force_run_process_check m e).1.state = m.state
    ∨ (force_run_process_check m e).1.state = .ACTIVE
    ∨ (force_run_process_check m e).1.state = .ERROR := by
  unfold force_run_process_check
  cases e.processResult with
  | ok raw =>
    dsimp only
    split
    · split
      · right; left; rw [set_state_state]
      · left; rfl
    · left; rfl
  | error u =>
    right; right
    dsimp only
    rw [set_state_state]


theorem set_state_lpd (m : Monitor) (ns : DeviceState) :
    (set_state m ns).last_parsed_data = m.last_parsed_data := by
  unfold set_state
  split
  · cases ns <;> rfl
  · rfl


theorem crs_suspended_stays (m : Monitor) (p : Except PowerErr String)
    (h1 : m.state = .SUSPENDED)
    (h2 : ∀ raw, p = .ok raw → pyStrip raw ≠ "active") :
    (check_runtime_status m false p).state ≠ .ACTIVE := by
  unfold check_runtime_status
  cases p with
  | ok raw =>
    dsimp only
    have hna := h2 raw rfl
    simp [h1, hna]
  | error err =>
    cases err with
    | fileNotFound =>
      dsimp only
      split
      · rw [set_state_state]; decide
      · simp [h1]
    | other => simp [h1]


theorem force_nonempty_active (m : Monitor) (e : Env) (raw : String)
    (h1 : e.processResult = .ok raw)
    (h2 : parse_nvidia_smi_output_processes raw ≠ []) :
    (force_run_process_check m e).1.state = .ACTIVE := by
  unfold force_run_process_check
  rw [h1]
  dsimp only
  rw [if_pos h2]
  dsimp only
  split
  · rw [set_state_state]
  · next h => simpa using not_not.mp (by simpa using h)


theorem statusTick_queries (m : Monitor) (e : Env) :
    (step m .statusTick e).2 = []
    ∨ (step m .statusTick e).2 = [Query.powerRead]
    ∨ (step m .statusTick e).2 = [Query.powerRead, Query.metricsQuery] := by
  rcases hs : m.status_timer with _ | v
  · left; simp [step, hs]
  · simp only [step, hs, Option.isSome_some, if_true]
    unfold check_status_and_metrics
    dsimp only
    repeat' split
    · right; right; rfl
    · right; left; rfl
    · right; left; rfl


theorem statusTick_no_proc_query (m : Monitor) (e : Env) :
    Query.processQuery ∉ (step m .statusTick e).2 := by
  rcases statusTick_queries m e with h | h | h <;> rw [h] <;> decide


theorem force_queries (m : Monitor) (e : Env) :
    (force_run_process_check m e).2.1 = [Query.processQuery] := by
  unfold force_run_process_check
  cases e.processResult with
  | ok raw =>
    dsimp only
    split
    · rfl
    · rfl
  | error u => rfl


theorem idle_tick_queries (m : Monitor) (e : Env)
    (h1 : m.state = .IDLE_DETECTING) (h2 : m.idle_timer.isSome) :
    (step m .idleTick e).2 = [Query.processQuery] := by
  simp only [step, h2, if_true]
  unfold check_idle_process_activity
  rw [if_neg (show ¬(m.state ≠ .IDLE_DETECTING) by simp [h1])]
  dsimp only
  repeat' split
  all_goals simp [force_queries]


theorem crs_idle_ignores (m : Monitor) (raw : String)
    (h : m.state = .IDLE_DETECTING) (hns : pyStrip raw ≠ "suspended") :
    check_runtime_status m false (.ok raw) = m := by
  unfold check_runtime_status
  dsimp only
  simp [h, hns]


theorem crs_idle_cases (m : Monitor) (p : Except PowerErr String)
    (h : m.state = .IDLE_DETECTING) :
    (check_runtime_status m false p).state = .IDLE_DETECTING
    ∨ ((check_runtime_status m false p).state = .SUSPENDED
       ∧ ∃ raw, p = .ok raw ∧ pyStrip raw = "suspended")
    ∨ ((check_runtime_status m false p).state = .ERROR ∧ p = .error .fileNotFound) := by
  cases p with
  | ok raw =>
    by_cases hsusp : pyStrip raw = "suspended"
    · right; left
      refine ⟨?_, raw, rfl, hsusp⟩
      unfold check_runtime_status
      dsimp only
      simp [h, hsusp, set_state_state]
    · left
      rw [crs_idle_ignores m raw h hsusp]
      exact h
  | error err =>
    cases err with
    | fileNotFound =>
      right; right
      unfold check_runtime_status
      dsimp only
      rw [if_pos (show m.state ≠ .ERROR by simp [h])]
      exact ⟨set_state_state _ _, rfl⟩
    | other => left; exact h


theorem force_error_state (m : Monitor) (e : Env) (u : Unit)
    (hq : e.processResult = .error u) :
    (force_run_process_check m e).1.state = .ERROR := by
  unfold force_run_process_check
  rw [hq]
  dsimp only
  rw [set_state_state]


theorem force_error_fast (m : Monitor) (e : Env) (u : Unit)
    (hq : e.processResult = .error u) (h : m.state ≠ .ERROR) :
    (force_run_process_check m e).1.fast_check_timer = none := by
  unfold force_run_process_check
  rw [hq]
  dsimp only
  unfold set_state
  rw [if_pos (show ({ m with last_parsed_data := some [("Error", "Command Failed")] } : Monitor).state ≠ .ERROR by simpa using h)]


theorem force_empty_result (m : Monitor) (e : Env) (raw : String)
    (h1 : e.processResult = .ok raw)
    (h5 : parse_nvidia_smi_output_processes raw = []) :
    (force_run_process_check m e).1 = { m with last_parsed_data := none } := by
  unfold force_run_process_check
  rw [h1]
  dsimp only
  rw [if_neg (show ¬(parse_nvidia_smi_output_processes raw ≠ []) by simp [h5])]


theorem check_idle_cases (m : Monitor) (e : Env) (h : m.state = .IDLE_DETECTING) :
    (check_idle_process_activity m e).1.state = .IDLE_DETECTING
    ∨ ((check_idle_process_activity m e).1.state = .ACTIVE
       ∧ ∃ raw, e.processResult = .ok raw ∧ parse_nvidia_smi_output_processes raw ≠ [])
    ∨ ((check_idle_process_activity m e).1.state = .ERROR ∧ e.processResult = .error ()) := by
  unfold check_idle_process_activity
  rw [if_neg (show ¬(m.state ≠ .IDLE_DETECTING) by simp [h])]
  cases hq : e.processResult with
  | ok raw =>
    by_cases hp : parse_nvidia_smi_output_processes raw = []
    · left
      have hr := force_empty_result m e raw hq hp
      dsimp only
      rw [hr]
      rw [if_neg (show ¬(({ m with last_parsed_data := none } : Monitor).state = .ACTIVE) by simp [h])]
      split
      · split
        · simpa using h
        · simpa using h
      · simpa using h
    · right; left
      have ha := force_nonempty_active m e raw hq hp
      dsimp only
      rw [if_pos ha]
      exact ⟨ha, raw, rfl, hp⟩
  | error u =>
    right; right
    cases u
    have he := force_error_state m e () hq
    have hf := force_error_fast m e () hq (by simp [h])
    dsimp only
    rw [if_neg (show ¬((force_run_process_check m e).1.state = .ACTIVE) by rw [he]; decide)]
    rw [if_neg (show ¬((force_run_process_check m e).1.fast_check_timer.isSome = true) by rw [hf]; decide)]
    exact ⟨he, rfl⟩


theorem alookup_map_set (m : List (String × String × String)) (k : String) (v : String × String) :
    alookup k (m.map (fun p => if p.1 = k then (k, v) else p))
      = (alookup k m).map (fun _ => v) := by
  induction m with
  | nil => rfl
  | cons p rest ih =>
    obtain ⟨k1, w⟩ := p
    simp only [List.map_cons]
    dsimp only
    by_cases hk : k1 = k
    · rw [if_pos hk]
      subst hk
      simp [alookup]
    · rw [if_neg hk]
      simp [alookup, hk, ih]


theorem alookup_append_left (k : String) (m l : List (String × String × String))
    (v : String × String) (h : alookup k m = some v) :
    alookup k (m ++ l) = some v := by
  induction m with
  | nil => cases h
  | cons p rest ih =>
    obtain ⟨k1, w⟩ := p
    simp only [alookup] at h
    simp only [List.cons_append, alookup]
    by_cases hk : k1 = k
    · rw [if_pos hk] at h ⊢; exact h
    · rw [if_neg hk] at h ⊢; exact ih h


theorem alookup_append_right (k : String) (m l : List (String × String × String))
    (h : alookup k m = none) :
    alookup k (m ++ l) = alookup k l := by
  induction m with
  | nil => rfl
  | cons p rest ih =>
    obtain ⟨k1, w⟩ := p
    simp only [alookup] at h
    simp only [List.cons_append, alookup]
    by_cases hk : k1 = k
    · rw [if_pos hk] at h; cases h
    · rw [if_neg hk] at h ⊢; exact ih h


theorem alookup_dictSet_self (m : List (String × String × String)) (k : String)
    (v : String × String) :
    alookup k (dictSet m k v) = some v := by
  unfold dictSet
  split
  · next hsome =>
    rw [alookup_map_set]
    obtain ⟨w, hw⟩ := Option.isSome_iff_exists.mp hsome
    rw [hw]; rfl
  · next hnone =>
    rw [alookup_append_right k m _ (Option.not_isSome_iff_eq_none.mp hnone)]
    simp [alookup]


theorem alookup_map_set_ne (m : List (String × String × String)) (k k' : String)
    (v : String × String) (hk : k' ≠ k) :
    alookup k' (m.map (fun p => if p.1 = k then (k, v) else p)) = alookup k' m := by
  induction m with
  | nil => rfl
  | cons p rest ih =>
    obtain ⟨k1, w⟩ := p
    simp only [List.map_cons]
    dsimp only
    by_cases h1 : k1 = k
    · rw [if_pos h1]
      subst h1
      simp only [alookup]
      rw [if_neg (fun hh => hk hh.symm), if_neg (fun hh => hk hh.symm)]
      exact ih
    · rw [if_neg h1]
      simp only [alookup]
      by_cases h2 : k1 = k'
      · rw [if_pos h2, if_pos h2]
      · rw [if_neg h2, if_neg h2]
        exact ih


theorem alookup_dictSet_ne (m : List (String × String × String)) (k k' : String)
    (v : String × String) (hk : k' ≠ k) :
    alookup k' (dictSet m k v) = alookup k' m := by
  unfold dictSet
  split
  · exact alookup_map_set_ne m k k' v hk
  · rcases hm : alookup k' m with _ | w
    · rw [alookup_append_right k' m _ hm]
      simp only [alookup]
      rw [if_neg (fun hh => hk hh.symm)]
    · exact alookup_append_left k' m _ w hm


theorem nvmlPhase_preserve (nv : List (Nat × Option String))
    (acc : List (String × String × String)) (p n : String)
    (h : alookup p acc = some (n, "NVML")) :
    ∃ n2, ((p, n2) ∈ nvOk nv ∨ n2 = n)
      ∧ alookup p (nvmlPhase nv acc) = some (n2, "NVML") := by
  induction nv generalizing acc n with
  | nil => exact ⟨n, Or.inr rfl, h⟩
  | cons q rest ih =>
    obtain ⟨qp, oname⟩ := q
    cases oname with
    | none =>
      obtain ⟨n2, hmem, hl⟩ := ih acc n h
      exact ⟨n2, by simpa [nvOk] using hmem, hl⟩
    | some name =>
      by_cases hpq : p = toString qp
      · subst hpq
        have hself := alookup_dictSet_self acc (toString qp) (name, "NVML")
        obtain ⟨n2, hmem, hl⟩ := ih _ name hself
        refine ⟨n2, ?_, hl⟩
        rcases hmem with hm | hm
        · exact Or.inl (List.mem_cons_of_mem _ hm)
        · subst hm
          exact Or.inl (List.mem_cons_self _ _)
      · have hne := alookup_dictSet_ne acc (toString qp) p (name, "NVML") hpq
        obtain ⟨n2, hmem, hl⟩ := ih _ n (hne.trans h)
        refine ⟨n2, ?_, hl⟩
        rcases hmem with hm | hm
        · exact Or.inl (List.mem_cons_of_mem _ hm)
        · exact Or.inr hm


theorem nvmlPhase_hit (nv : List (Nat × Option String))
    (acc : List (String × String × String)) (p : String)
    (h : ∃ n, (p, n) ∈ nvOk nv) :
    ∃ n2, (p, n2) ∈ nvOk nv ∧ alookup p (nvmlPhase nv acc) = some (n2, "NVML") := by
  induction nv generalizing acc with
  | nil =>
    obtain ⟨n, hn⟩ := h
    simp [nvOk] at hn
  | cons q rest ih =>
    obtain ⟨qp, oname⟩ := q
    cases oname with
    | none =>
      obtain ⟨n, hn⟩ := h
      obtain ⟨n2, hmem, hl⟩ := ih acc ⟨n, by simpa [nvOk] using hn⟩
      exact ⟨n2, by simpa [nvOk] using hmem, hl⟩
    | some name =>
      by_cases hpq : p = toString qp
      · subst hpq
        have hself := alookup_dictSet_self acc (toString qp) (name, "NVML")
        obtain ⟨n2, hmem, hl⟩ := nvmlPhase_preserve rest _ (toString qp) name hself
        refine ⟨n2, ?_, hl⟩
        rcases hmem with hm | hm
        · exact List.mem_cons_of_mem _ hm
        · subst hm
          exact List.mem_cons_self _ _
      · obtain ⟨n, hn⟩ := h
        have htail : (p, n) ∈ nvOk rest := by
          rcases List.mem_cons.mp (show (p, n) ∈ (toString qp, name) :: nvOk rest from hn)
            with hh | ht
          · exact absurd (congrArg Prod.fst hh) hpq
          · exact ht
        obtain ⟨n2, hmem, hl⟩ := ih (dictSet acc (toString qp) (name, "NVML")) ⟨n, htail⟩
        exact ⟨n2, List.mem_cons_of_mem _ hmem, hl⟩


theorem procPhase_preserve (lines : List String)
    (acc : List (String × String × String)) (p : String) (v : String × String)
    (h : alookup p acc = some v) :
    alookup p (procPhase lines acc) = some v := by
  induction lines generalizing acc with
  | nil => exact h
  | cons line rest ih =>
    apply ih
    dsimp only
    by_cases hl : line ≠ ""
    · rw [if_pos hl]
      cases hsp : pySplitOnce line with
      | none => exact h
      | some pr =>
        obtain ⟨pid, name⟩ := pr
        dsimp only
        by_cases hn : (alookup pid acc).isNone
        · rw [if_pos hn]
          exact alookup_append_left p acc _ v h
        · rw [if_neg hn]
          exact h
    · rw [if_neg hl]
      exact h

/-! ### The claims -/

/-- C1 (corrected), counterexample: with the monitor in `SUSPENDED` and the
power source reading `active`, the next state is `ACTIVE`, not
`IDLE_DETECTING` as the claim states. -/
theorem wake_from_suspended_not_idledetecting :
    mSuspended.state = .SUSPENDED
    ∧ envActive.powerResult = .ok "active\n"
    ∧ pyStrip "active\n" = "active"
    ∧ (step mSuspended .statusTick envActive).1.state = .ACTIVE
    ∧ (step mSuspended .statusTick envActive).1.state ≠ .IDLE_DETECTING :=
  ⟨by decide, rfl, by decide, by decide, by decide⟩

/-- C1 (corrected), amended claim: for every tick in which the current state
is `SUSPENDED` and the power source reads `active`, the next state is
`ACTIVE` — the monitor assumes activity immediately instead of reconfirming
it through `IDLE_DETECTING`. -/
theorem suspended_wake_goes_active (m : Monitor) (e : Env) (raw : String)
    (h1 : m.state = .SUSPENDED) (h2 : m.status_timer.isSome)
    (h3 : e.powerResult = .ok raw) (h4 : pyStrip raw = "active") :
    (step m .statusTick e).1.state = .ACTIVE := by
  simp only [step, h2, if_true]
  rw [(csm_fields m false e).1]
  unfold check_runtime_status
  rw [h3]
  dsimp only
  simp [h1, h4, set_state_state]


/-- Witness for C1 at a concrete reachable state. -/
theorem suspended_wake_goes_active_witness :
    mSuspended.state = .SUSPENDED
    ∧ (step mSuspended .statusTick envActive).1.state = .ACTIVE :=
  ⟨by decide,
   suspended_wake_goes_active mSuspended envActive "active\n" (by decide) (by decide)
     rfl (by decide)⟩

/-- C2 (corrected), counterexample: on a tick that starts in `SUSPENDED`
with the power source reading `active`, an expensive metrics query is issued
during that same tick (after the state has switched to `ACTIVE`). -/
theorem wake_tick_issues_metrics_query :
    mSuspended.state = .SUSPENDED
    ∧ Query.metricsQuery ∈ (step mSuspended .statusTick envActive).2 :=
  ⟨by decide, by decide⟩

/-- C2 (corrected), amended claim: for every tick taken while the current
state is `SUSPENDED` on which the power source does not read `active`, no
expensive query (process list or metrics) is issued — only the cheap power
read occurs; this holds for every event kind. -/
theorem suspended_tick_no_expensive_query (m : Monitor) (ev : Event) (e : Env)
    (h1 : m.state = .SUSPENDED)
    (h2 : ∀ raw, e.powerResult = .ok raw → pyStrip raw ≠ "active") :
    Query.processQuery ∉ (step m ev e).2 ∧ Query.metricsQuery ∉ (step m ev e).2 := by
  cases ev with
  | statusTick =>
    rcases hs : m.status_timer with _ | v
    · simp [step, hs]
    · simp only [step, hs, Option.isSome_some, if_true]
      unfold check_status_and_metrics
      dsimp only
      rw [if_neg (crs_suspended_stays m e.powerResult h1 h2)]
      split <;> simp
  | processTick =>
    rcases hp : m.process_timer with _ | v
    · simp [step, hp]
    · simp only [step, hp, Option.isSome_some, if_true]
      unfold run_nvidia_smi_processes
      rw [if_pos (show m.state ≠ .ACTIVE by simp [h1])]
      simp
  | fastTick =>
    rcases hp : m.fast_check_timer with _ | v
    · simp [step, hp]
    · simp only [step, hp, Option.isSome_some, if_true]
      unfold check_idle_process_activity
      rw [if_pos (show m.state ≠ .IDLE_DETECTING by simp [h1])]
      simp
  | idleTick =>
    rcases hp : m.idle_timer with _ | v
    · simp [step, hp]
    · simp only [step, hp, Option.isSome_some, if_true]
      unfold check_idle_process_activity
      rw [if_pos (show m.state ≠ .IDLE_DETECTING by simp [h1])]
      simp
  | menuOpen =>
    simp only [step]
    unfold update_process_menu
    rw [if_neg (show ¬(m.state = .ACTIVE ∨ m.state = .IDLE_DETECTING) by simp [h1])]
    simp


/-- Witness for C2 at a concrete reachable state. -/
theorem suspended_tick_no_expensive_query_witness :
    mSuspended.state = .SUSPENDED
    ∧ Query.processQuery ∉ (step mSuspended .statusTick envSuspended).2
    ∧ Query.metricsQuery ∉ (step mSuspended .statusTick envSuspended).2 :=
  ⟨by decide,
   suspended_tick_no_expensive_query mSuspended .statusTick envSuspended (by decide)
     (fun raw hr => by injection hr with h; subst h; decide)⟩

/-- C3 (corrected), counterexample: when the process-list query fails while
the monitor is `ACTIVE`, the state becomes `ERROR` — it is not treated as a
transient empty result and the state is not kept `ACTIVE`. -/
theorem process_failure_not_kept_active :
    mActive.state = .ACTIVE
    ∧ envProcFail.processResult = .error ()
    ∧ (step mActive .processTick envProcFail).1.state = .ERROR
    ∧ (step mActive .processTick envProcFail).1.state ≠ .ACTIVE :=
  ⟨by decide, rfl, by decide, by decide⟩

/-- C3 (corrected), amended claim: a failed process-list query on an active
tick is treated as fatal: `last_parsed_data` is replaced by the
`["Error", "Command Failed"]` marker and the state machine enters `ERROR`. -/
theorem process_failure_goes_error (m : Monitor) (e : Env)
    (h1 : m.state = .ACTIVE) (h2 : m.process_timer.isSome)
    (h3 : e.processResult = .error ()) :
    (step m .processTick e).1.state = .ERROR
    ∧ (step m .processTick e).1.last_parsed_data = some [("Error", "Command Failed")] := by
  simp only [step, h2, if_true]
  unfold run_nvidia_smi_processes
  rw [if_neg (show ¬(m.state ≠ .ACTIVE) by simp [h1])]
  rw [h3]
  exact ⟨set_state_state _ _, by rw [set_state_lpd]⟩


/-- Witness for C3 at a concrete reachable state. -/
theorem process_failure_goes_error_witness :
    mActive.state = .ACTIVE
    ∧ (step mActive .processTick envProcFail).1.state = .ERROR
    ∧ (step mActive .processTick envProcFail).1.last_parsed_data
        = some [("Error", "Command Failed")] :=
  ⟨by decide,
   process_failure_goes_error mActive envProcFail (by decide) (by decide) rfl⟩

/-- C4 (confirmed): in every tick sequence, on every status tick taken in a
state other than the terminal `ERROR`, the power-state source is read —
regardless of whether that state is `UNKNOWN`, `ACTIVE`, `IDLE_DETECTING` or
`SUSPENDED`. (`StatusLive` holds for every state the program starts from:
the status timer is stopped only on entry to `ERROR`.) -/
theorem power_read_every_tick (m0 m : Monitor) (e : Env)
    (h0 : StatusLive m0) (hr : Reachable m0 m) (hne : m.state ≠ .ERROR) :
    Query.powerRead ∈ (step m .statusTick e).2 := by
  have hl := reach_status_live m0 m h0 hr
  rcases hs : m.status_timer with _ | v
  · exact absurd (hl hs) hne
  · exact statusTick_reads_power m e (by simp [hs])


/-- Witness for C4 at a concrete reachable state. -/
theorem power_read_every_tick_witness :
    mActive.state ≠ .ERROR
    ∧ Query.powerRead ∈ (step mActive .statusTick envActive).2 :=
  ⟨by decide,
   power_read_every_tick mActive mActive envActive (fun h => absurd h (by decide))
     (.refl mActive) (by decide)⟩

/-- C5 (corrected), counterexample: after a process-query failure the state
is `ERROR` but the status timer still runs; a later tick on which the power
read fails with file-not-found leaves that timer running, and the very next
tick issues another power query — queries do not stop after the
file-not-found tick. -/
theorem queries_continue_after_late_fnf :
    mFailed.state = .ERROR
    ∧ envPowerGone.powerResult = .error .fileNotFound
    ∧ (step mFailed .statusTick envPowerGone).2 = [Query.powerRead]
    ∧ (step (step mFailed .statusTick envPowerGone).1 .statusTick envActive).2 ≠ [] :=
  ⟨by decide, rfl, by decide, by decide⟩

/-- C5 (corrected), amended claim: if the power read fails with
file-not-found on a tick whose state is not already `ERROR`, the state
becomes `ERROR`, that tick issues only the cheap power read, and no event
thereafter changes the state or issues any query at all. -/
theorem fnf_halts_monitor (m : Monitor) (e : Env)
    (h1 : m.state ≠ .ERROR) (h2 : m.status_timer.isSome)
    (h3 : e.powerResult = .error .fileNotFound) :
    (step m .statusTick e).1.state = .ERROR
    ∧ (step m .statusTick e).2 = [Query.powerRead]
    ∧ ∀ evs, run (step m .statusTick e).1 evs = ((step m .statusTick e).1, []) := by
  obtain ⟨hs, ht1, ht2, ht3, ht4, hq⟩ := fnf_tick m e h1 h2 h3
  exact ⟨hs, hq, fun evs => halted_run _ evs hs ht1 ht2 ht3 ht4⟩


/-- Witness for C5 at a concrete reachable state. -/
theorem fnf_halts_monitor_witness :
    mSuspended.state ≠ .ERROR
    ∧ (step mSuspended .statusTick envPowerGone).1.state = .ERROR
    ∧ (step mSuspended .statusTick envPowerGone).2 = [Query.powerRead]
    ∧ ∀ evs, run (step mSuspended .statusTick envPowerGone).1 evs
        = ((step mSuspended .statusTick envPowerGone).1, []) :=
  ⟨by decide,
   fnf_halts_monitor mSuspended envPowerGone (by decide) (by decide) rfl⟩

/-- C6 (confirmed): on any event of any state, if a process-list query was
issued during the step and its result parses to a non-empty list, the state
after the step is `ACTIVE` — whichever cadence (active polling, stage-1 fast
check, stage-2 slow loop, or the menu hook) produced the query. -/
theorem nonempty_list_promotes_active (m : Monitor) (ev : Event) (e : Env) (raw : String)
    (h1 : e.processResult = .ok raw)
    (h2 : parse_nvidia_smi_output_processes raw ≠ [])
    (h3 : Query.processQuery ∈ (step m ev e).2) :
    (step m ev e).1.state = .ACTIVE := by
  cases ev with
  | statusTick => exact absurd h3 (statusTick_no_proc_query m e)
  | processTick =>
    rcases hp : m.process_timer with _ | v
    · rw [step] at h3; simp [hp] at h3
    · simp only [step, hp, Option.isSome_some, if_true]
      unfold run_nvidia_smi_processes
      by_cases ha : m.state ≠ .ACTIVE
      · exfalso
        rw [step] at h3
        simp only [hp, Option.isSome_some, if_true] at h3
        unfold run_nvidia_smi_processes at h3
        rw [if_pos ha] at h3
        simp at h3
      · rw [if_neg ha, h1]
        dsimp only
        rw [if_neg (by simpa using h2)]
        simpa using not_not.mp ha
  | fastTick =>
    rcases hp : m.fast_check_timer with _ | v
    · rw [step] at h3; simp [hp] at h3
    · simp only [step, hp, Option.isSome_some, if_true]
      unfold check_idle_process_activity
      by_cases hidle : m.state ≠ .IDLE_DETECTING
      · exfalso
        rw [step] at h3
        simp only [hp, Option.isSome_some, if_true] at h3
        unfold check_idle_process_activity at h3
        rw [if_pos hidle] at h3
        simp at h3
      · rw [if_neg hidle]
        dsimp only
        rw [if_pos (force_nonempty_active m e raw h1 h2)]
        exact force_nonempty_active m e raw h1 h2
  | idleTick =>
    rcases hp : m.idle_timer with _ | v
    · rw [step] at h3; simp [hp] at h3
    · simp only [step, hp, Option.isSome_some, if_true]
      unfold check_idle_process_activity
      by_cases hidle : m.state ≠ .IDLE_DETECTING
      · exfalso
        rw [step] at h3
        simp only [hp, Option.isSome_some, if_true] at h3
        unfold check_idle_process_activity at h3
        rw [if_pos hidle] at h3
        simp at h3
      · rw [if_neg hidle]
        dsimp only
        rw [if_pos (force_nonempty_active m e raw h1 h2)]
        exact force_nonempty_active m e raw h1 h2
  | menuOpen =>
    simp only [step] at h3 ⊢
    unfold update_process_menu at h3 ⊢
    by_cases hc : (m.state = .ACTIVE ∨ m.state = .IDLE_DETECTING)
    · rw [if_pos hc]
      exact force_nonempty_active m e raw h1 h2
    · rw [if_neg hc] at h3
      simp at h3


/-- Witness for C6 at a concrete reachable state. -/
theorem nonempty_list_promotes_active_witness :
    parse_nvidia_smi_output_processes "1234, train.py\n" ≠ []
    ∧ Query.processQuery ∈ (step mIdle .fastTick envActive).2
    ∧ (step mIdle .fastTick envActive).1.state = .ACTIVE :=
  ⟨by decide, by decide,
   nonempty_list_promotes_active mIdle .fastTick envActive "1234, train.py\n" rfl
     (by decide) (by decide)⟩

/-- C7 (confirmed): whenever a step moves the monitor into `IDLE_DETECTING`
from any other state, the counter `fast_check_counter` equals the configured
threshold `FAST_CHECK_COUNT` immediately afterwards — it never carries over
a residual value from a previous idle episode. -/
theorem counter_reset_on_idle_entry (m : Monitor) (ev : Event) (e : Env)
    (h1 : m.state ≠ .IDLE_DETECTING)
    (h2 : (step m ev e).1.state = .IDLE_DETECTING) :
    (step m ev e).1.fast_check_counter = FAST_CHECK_COUNT := by
  cases ev with
  | statusTick =>
    rcases hs : m.status_timer with _ | v
    · simp only [step, hs, Option.isSome_none, Bool.false_eq_true, if_false] at h2
      exact absurd h2 h1
    · simp only [step, hs, Option.isSome_some, if_true] at h2
      rw [(csm_fields m false e).1] at h2
      exact absurd (crs_state_cases m false e.powerResult h2) h1
  | processTick =>
    rcases hp : m.process_timer with _ | v
    · simp only [step, hp, Option.isSome_none, Bool.false_eq_true, if_false] at h2
      exact absurd h2 h1
    · simp only [step, hp, Option.isSome_some, if_true] at h2 ⊢
      unfold run_nvidia_smi_processes at h2 ⊢
      by_cases ha : m.state ≠ .ACTIVE
      · rw [if_pos ha] at h2; exact absurd h2 h1
      · rw [if_neg ha] at h2 ⊢
        cases hq : e.processResult with
        | ok raw =>
          simp only [hq] at h2 ⊢
          by_cases hparse : parse_nvidia_smi_output_processes raw = []
          · rw [if_pos hparse]
            show (set_state m .IDLE_DETECTING).fast_check_counter = FAST_CHECK_COUNT
            exact set_state_idle_counter m h1
          · rw [if_neg hparse] at h2; exact absurd h2 h1
        | error u =>
          simp only [hq] at h2
          simp [set_state_state] at h2
  | fastTick =>
    rcases hp : m.fast_check_timer with _ | v
    · simp only [step, hp, Option.isSome_none, Bool.false_eq_true, if_false] at h2
      exact absurd h2 h1
    · simp only [step, hp, Option.isSome_some, if_true] at h2
      unfold check_idle_process_activity at h2
      rw [if_pos h1] at h2
      exact absurd h2 h1
  | idleTick =>
    rcases hp : m.idle_timer with _ | v
    · simp only [step, hp, Option.isSome_none, Bool.false_eq_true, if_false] at h2
      exact absurd h2 h1
    · simp only [step, hp, Option.isSome_some, if_true] at h2
      unfold check_idle_process_activity at h2
      rw [if_pos h1] at h2
      exact absurd h2 h1
  | menuOpen =>
    simp only [step, update_process_menu] at h2
    by_cases hc : (m.state = .ACTIVE ∨ m.state = .IDLE_DETECTING)
    · rw [if_pos hc] at h2
      rcases force_state_cases m e with hf | hf | hf
      · rw [hf] at h2; exact absurd h2 h1
      · rw [hf] at h2; cases h2
      · rw [hf] at h2; cases h2
    · rw [if_neg hc] at h2; exact absurd h2 h1


/-- Witness for C7 at a concrete reachable state. -/
theorem counter_reset_on_idle_entry_witness :
    mActive.state ≠ .IDLE_DETECTING
    ∧ (step mActive .processTick envNoProcs).1.state = .IDLE_DETECTING
    ∧ (step mActive .processTick envNoProcs).1.fast_check_counter = FAST_CHECK_COUNT :=
  ⟨by decide, by decide,
   counter_reset_on_idle_entry mActive .processTick envNoProcs (by decide) (by decide)⟩

/-- C8 (confirmed): on the fast-check tick in `IDLE_DETECTING` on which the
process list is empty and the counter reaches 0, the state stays
`IDLE_DETECTING`, the fast timer stops, the slow loop timer starts at the
configured `IDLE_CHECK_LOOP_MS` cadence, and every subsequent slow-loop tick
still issues the expensive process query — polling slows down but does not
stop. -/
theorem settled_idle_slow_poll (m : Monitor) (e : Env) (raw : String)
    (h1 : m.state = .IDLE_DETECTING) (h2 : m.fast_check_timer.isSome)
    (h3 : m.fast_check_counter ≤ 1)
    (h4 : e.processResult = .ok raw)
    (h5 : parse_nvidia_smi_output_processes raw = []) :
    (step m .fastTick e).1.state = .IDLE_DETECTING
    ∧ (step m .fastTick e).1.fast_check_timer = none
    ∧ (step m .fastTick e).1.idle_timer = some IDLE_CHECK_LOOP_MS
    ∧ ∀ e2 : Env, (step (step m .fastTick e).1 .idleTick e2).2 = [Query.processQuery] := by
  simp only [step, h2, if_true]
  unfold check_idle_process_activity
  rw [if_neg (show ¬(m.state ≠ .IDLE_DETECTING) by simp [h1])]
  unfold force_run_process_check
  rw [h4]
  dsimp only
  rw [if_neg (show ¬(parse_nvidia_smi_output_processes raw ≠ []) by simp [h5])]
  dsimp only
  rw [if_neg (show ¬(({ m with last_parsed_data := none } : Monitor).state = .ACTIVE) by simp [h1])]
  rw [if_pos (show ({ m with last_parsed_data := none } : Monitor).fast_check_timer.isSome = true by simpa using h2)]
  rw [if_pos (show ({ m with last_parsed_data := none, fast_check_counter := m.fast_check_counter - 1 } : Monitor).fast_check_counter ≤ 0 by simp; omega)]
  refine ⟨by simpa using h1, rfl, rfl, ?_⟩
  intro e2
  exact idle_tick_queries _ e2 (by simpa using h1) (by simp)


/-- Witness for C8 at a concrete reachable state. -/
theorem settled_idle_slow_poll_witness :
    mIdleLate.state = .IDLE_DETECTING
    ∧ mIdleLate.fast_check_counter ≤ 1
    ∧ (step mIdleLate .fastTick envNoProcs).1.state = .IDLE_DETECTING
    ∧ (step mIdleLate .fastTick envNoProcs).1.fast_check_timer = none
    ∧ (step mIdleLate .fastTick envNoProcs).1.idle_timer = some IDLE_CHECK_LOOP_MS
    ∧ ∀ e2 : Env,
        (step (step mIdleLate .fastTick envNoProcs).1 .idleTick e2).2
          = [Query.processQuery] :=
  ⟨by decide, by decide,
   settled_idle_slow_poll mIdleLate envNoProcs "" (by decide) (by decide) (by decide)
     rfl (by decide)⟩

/-- C9 (confirmed): in `fetch_processes`, every pid that has a successful
authoritative (NVML) observation ends up in the reconciled map with an
authoritative name and the `NVML` tag — heuristic `/proc` entries are only
inserted for absent pids, so for a pid present in both inputs the
authoritative entry wins and the result is never tagged `/proc`. -/
theorem reconcile_authoritative_wins (nv : List (Nat × Option String))
    (ps : Option String) (pid : String)
    (h : ∃ n, (pid, n) ∈ nvOk nv) :
    (∃ n, (pid, n) ∈ nvOk nv
       ∧ alookup pid (fetch_processes nv ps) = some (n, "NVML"))
    ∧ ∀ nm, alookup pid (fetch_processes nv ps) ≠ some (nm, "/proc") := by
  obtain ⟨n2, hmem, hl⟩ := nvmlPhase_hit nv [] pid h
  have hfinal : alookup pid (fetch_processes nv ps) = some (n2, "NVML") := by
    unfold fetch_processes
    cases ps with
    | none => exact hl
    | some raw => exact procPhase_preserve _ _ pid _ hl
  refine ⟨⟨n2, hmem, hfinal⟩, ?_⟩
  intro nm hcontra
  rw [hfinal] at hcontra
  injection hcontra with hpair
  have hsrc : ("NVML" : String) = "/proc" := congrArg Prod.snd hpair
  exact absurd hsrc (by decide)

/-- Witness for C9 at concrete inputs where pid 1234 is in both sources. -/
theorem reconcile_authoritative_wins_witness :
    (∃ n, (("1234" : String), n) ∈ nvOk [(1234, some "python3")])
    ∧ (∃ n, (("1234" : String), n) ∈ nvOk [(1234, some "python3")]
        ∧ alookup "1234"
            (fetch_processes [(1234, some "python3")] (some "1234 xorg\n500 firefox"))
          = some (n, "NVML"))
    ∧ ∀ nm, alookup "1234"
        (fetch_processes [(1234, some "python3")] (some "1234 xorg\n500 firefox"))
        ≠ some (nm, "/proc") :=
  ⟨⟨"python3", by decide⟩,
   reconcile_authoritative_wins [(1234, some "python3")]
     (some "1234 xorg\n500 firefox") "1234" ⟨"python3", by decide⟩⟩

/-- C10 (corrected), counterexample: a failed process-list query on an idle
fast-check tick moves the monitor out of `IDLE_DETECTING` into `ERROR` —
an exit that is neither a power read of `suspended` nor a non-empty process
list, so those are not the only ways out. -/
theorem idle_exit_on_process_failure :
    mIdle.state = .IDLE_DETECTING
    ∧ envProcFail.processResult = .error ()
    ∧ (step mIdle .fastTick envProcFail).1.state = .ERROR
    ∧ (step mIdle .fastTick envProcFail).1.state ≠ .SUSPENDED
    ∧ (step mIdle .fastTick envProcFail).1.state ≠ .ACTIVE :=
  ⟨by decide, rfl, by decide, by decide, by decide⟩

/-- C10 (corrected), amended claim: while in `IDLE_DETECTING`, a power read
of `active` leaves the state unchanged (deliberately ignored so the device
can suspend), and the only ways out on any event are: a power read of
`suspended` (to `SUSPENDED`), a non-empty process-list result (to
`ACTIVE`), or a failure — power-source file-not-found or a failed
process-list query — (to `ERROR`). -/
theorem idle_detecting_exits (m : Monitor) (ev : Event) (e : Env)
    (h : m.state = .IDLE_DETECTING) :
    (∀ raw, ev = .statusTick → e.powerResult = .ok raw → pyStrip raw = "active" →
       (step m ev e).1.state = .IDLE_DETECTING)
    ∧ ((step m ev e).1.state = .IDLE_DETECTING
       ∨ ((step m ev e).1.state = .SUSPENDED ∧ ev = .statusTick
          ∧ ∃ raw, e.powerResult = .ok raw ∧ pyStrip raw = "suspended")
       ∨ ((step m ev e).1.state = .ACTIVE
          ∧ ∃ raw, e.processResult = .ok raw ∧ parse_nvidia_smi_output_processes raw ≠ [])
       ∨ ((step m ev e).1.state = .ERROR
          ∧ (e.powerResult = .error .fileNotFound ∨ e.processResult = .error ()))) := by
  cases ev with
  | statusTick =>
    rcases hs : m.status_timer with _ | v
    · constructor
      · intro raw _ _ _; simp [step, hs, h]
      · left; simp [step, hs, h]
    · have hst := (csm_fields m false e).1
      constructor
      · intro raw _ hpr hact
        simp only [step, hs, Option.isSome_some, if_true]
        rw [hst, hpr]
        rw [crs_idle_ignores m raw h (by rw [hact]; decide)]
        exact h
      · simp only [step, hs, Option.isSome_some, if_true]
        rw [hst]
        rcases crs_idle_cases m e.powerResult h with hc | ⟨hc, raw, hpr, hsusp⟩ | ⟨hc, hpr⟩
        · left; exact hc
        · right; left; exact ⟨hc, by trivial, raw, hpr, hsusp⟩
        · right; right; right; exact ⟨hc, Or.inl hpr⟩
  | processTick =>
    constructor
    · intro raw hev; cases hev
    · left
      rcases hp : m.process_timer with _ | v
      · simp [step, hp, h]
      · simp only [step, hp, Option.isSome_some, if_true]
        unfold run_nvidia_smi_processes
        rw [if_pos (show m.state ≠ .ACTIVE by simp [h])]
        exact h
  | fastTick =>
    constructor
    · intro raw hev; cases hev
    · rcases hp : m.fast_check_timer with _ | v
      · left; simp [step, hp, h]
      · simp only [step, hp, Option.isSome_some, if_true]
        rcases check_idle_cases m e h with hc | ⟨hc, raw, hq, hne⟩ | ⟨hc, hq⟩
        · left; exact hc
        · right; right; left; exact ⟨hc, raw, hq, hne⟩
        · right; right; right; exact ⟨hc, Or.inr hq⟩
  | idleTick =>
    constructor
    · intro raw hev; cases hev
    · rcases hp : m.idle_timer with _ | v
      · left; simp [step, hp, h]
      · simp only [step, hp, Option.isSome_some, if_true]
        rcases check_idle_cases m e h with hc | ⟨hc, raw, hq, hne⟩ | ⟨hc, hq⟩
        · left; exact hc
        · right; right; left; exact ⟨hc, raw, hq, hne⟩
        · right; right; right; exact ⟨hc, Or.inr hq⟩
  | menuOpen =>
    constructor
    · intro raw hev; cases hev
    · simp only [step]
      unfold update_process_menu
      rw [if_pos (Or.inr h)]
      cases hq : e.processResult with
      | ok raw =>
        by_cases hp : parse_nvidia_smi_output_processes raw = []
        · left
          rw [force_empty_result m e raw hq hp]
          simpa using h
        · right; right; left
          exact ⟨force_nonempty_active m e raw hq hp, raw, rfl, hp⟩
      | error u =>
        right; right; right
        cases u
        exact ⟨force_error_state m e () hq, Or.inr rfl⟩


/-- Witness for C10 at a concrete reachable state. -/
theorem idle_detecting_exits_witness :
    mIdle.state = .IDLE_DETECTING
    ∧ ((∀ raw, Event.statusTick = Event.statusTick →
          envActive.powerResult = .ok raw → pyStrip raw = "active" →
          (step mIdle .statusTick envActive).1.state = .IDLE_DETECTING)
       ∧ ((step mIdle .statusTick envActive).1.state = .IDLE_DETECTING
          ∨ ((step mIdle .statusTick envActive).1.state = .SUSPENDED
             ∧ Event.statusTick = Event.statusTick
             ∧ ∃ raw, envActive.powerResult = .ok raw ∧ pyStrip raw = "suspended")
          ∨ ((step mIdle .statusTick envActive).1.state = .ACTIVE
             ∧ ∃ raw, envActive.processResult = .ok raw
                 ∧ parse_nvidia_smi_output_processes raw ≠ [])
          ∨ ((step mIdle .statusTick envActive).1.state = .ERROR
             ∧ (envActive.powerResult = .error .fileNotFound
                ∨ envActive.processResult = .error ())))) :=
  ⟨by decide, idle_detecting_exits mIdle .statusTick envActive (by decide)⟩
